import Mathlib

/-!
Verification of the leatherman curl HTTP client core against its
specification.  The repository ships the public header
`src/curl/inc/leatherman/curl/client.hpp` (exception hierarchy, client
declaration, `curl_easy_setopt_maybe`) and the test suite
`src/curl/tests/client_test.cc`.  The implementation file `client.cc` and
the request/response headers are not part of the sources, so the request
execution pipeline, the callback bridging functions and the download
temp-file state machine are modelled from the specification (marked
`Modelled from the spec:` in their doc comments); the exception types are
embedded from `client.hpp` directly.

Strings handed to and received from the engine are modelled as Lean
`String`s; header lines processed character by character are modelled as
`List Char`.
-/

namespace Leatherman.Curl

/-- Embedded from `request.hpp`/`request.cc` usage in the tests and the
spec data model (§3): a request owns a target URL, an ordered header
sequence, an insertion-ordered cookie mapping and an optional body. -/
structure request where
  url : String
  headers : List (String × String) := []
  cookies : List (String × String) := []
  body : Option String := none
deriving Repr, DecidableEq

/-- Modelled from the spec: `request::add_cookie` (request builder API,
not under src/).  The cookie mapping is name→value with insertion order
preserved; adding an existing name updates its value in place. -/
def add_cookie (name value : String) : List (String × String) → List (String × String)
  | [] => [(name, value)]
  | (n, v) :: rest =>
    if n = name then (n, value) :: rest
    else (n, v) :: add_cookie name value rest

/-- Modelled from the spec: `request::remove_cookie` (request builder
API, not under src/).  Removes the pair(s) with the given name, keeping
the remaining pairs in order. -/
def remove_cookie (name : String) : List (String × String) → List (String × String)
  | [] => []
  | (n, v) :: rest =>
    if n = name then remove_cookie name rest
    else (n, v) :: remove_cookie name rest

/-- Modelled from the spec: the serialization of the cookie mapping into
the single engine cookie-header string — `name=value` pairs joined by
`"; "` in insertion order (spec §3, §4.2; built by `client::set_cookies`,
not under src/). -/
def cookie_string : List (String × String) → String
  | [] => ""
  | [(n, v)] => n ++ "=" ++ v
  | (n, v) :: rest => n ++ "=" ++ v ++ "; " ++ cookie_string rest

/-- Whitespace recognizer used by header trimming. -/
def isSpace (c : Char) : Bool :=
  c = ' ' || c = '\t' || c = '\r' || c = '\n'

/-- Trim leading whitespace from a header fragment. -/
def trimLeft (l : List Char) : List Char :=
  l.dropWhile isSpace

/-- Trim trailing whitespace from a header fragment. -/
def trimRight (l : List Char) : List Char :=
  (trimLeft l.reverse).reverse

/-- Trim surrounding whitespace from a header fragment. -/
def trim (l : List Char) : List Char :=
  trimRight (trimLeft l)

/-- Split a header line at the first `:`; `none` when the line has no
separator. -/
def splitColon : List Char → Option (List Char × List Char)
  | [] => none
  | c :: rest =>
    if c = ':' then some ([], rest)
    else
      match splitColon rest with
      | none => none
      | some (a, b) => some (c :: a, b)

/-- Modelled from the spec: `client::write_header` (declared in
`client.hpp`, implemented in `client.cc`, not under src/).  Per §4.2 the
callback discards the blank delimiter line, discards lines without a `:`
separator, and otherwise splits on the first `:`, trims surrounding
whitespace from name and value, and appends the pair to the response's
header collection. -/
def write_header (headers : List (List Char × List Char)) (line : List Char) :
    List (List Char × List Char) :=
  if trim line = [] then headers
  else
    match splitColon line with
    | none => headers
    | some (name, value) => headers ++ [(trim name, trim value)]

/-- Embedded from `response.hpp` usage in the tests and the spec data
model (§3): status code, header collection, accumulated body. -/
structure response where
  status_code : Nat
  headers : List (List Char × List Char)
  body : String
deriving Repr, DecidableEq

/-- Embedded from `client.hpp` lines 86–110: `http_request_exception`
carries the originating request and the message of its parent
`http_exception`. -/
structure http_request_exception where
  req : request
  message : String
deriving Repr, DecidableEq

/-- Embedded from `client.hpp` lines 115–162: `http_file_download_exception`
additionally carries the destination file path and the temp-file path
(four-argument constructor). -/
structure http_file_download_exception where
  req : request
  message : String
  file_path : String
  temp_path : String
deriving Repr, DecidableEq

/-- Embedded from `client.hpp` lines 123–125: the three-argument
constructor delegates to the four-argument one with an empty
`temp_path`. -/
def http_file_download_exception.mk3 (req : request) (file_path : String)
    (message : String) : http_file_download_exception :=
  { req := req, message := message, file_path := file_path, temp_path := "" }

/-- Embedded from `client.hpp` lines 244–249: the private HTTP method
enumeration. -/
inductive http_method where
  | get
  | put
  | post
deriving Repr, DecidableEq

/-- Embedded from `client.hpp` lines 267–270: the session configuration
state mutated by `set_ca_cert`, `set_client_cert` and
`set_supported_protocols`; defaults are no CA override, no client
cert/key, all protocols permitted (`CURLPROTO_ALL`). -/
structure client_state where
  ca_cert : String := ""
  client_cert : String := ""
  client_key : String := ""
  client_protocols : Nat
deriving Repr, DecidableEq

/-- Modelled from the spec: the transfer engine at its boundary (§6).
Each per-call option-setting primitive and the perform primitive return a
result code (0 = `CURLE_OK`); `strerror` is the engine's human-readable
error string for a code (`curl_easy_strerror`); on a successful perform
the engine delivers a status code, raw header lines and body chunks
through the registered callbacks. -/
structure engine where
  postCode : Nat := 0
  putCode : Nat := 0
  urlCode : Nat := 0
  headerCode : Nat := 0
  cookieCode : Nat := 0
  headerFunctionCode : Nat := 0
  headerContextCode : Nat := 0
  writeBodyFunctionCode : Nat := 0
  writeBodyContextCode : Nat := 0
  readBodyFunctionCode : Nat := 0
  readBodyContextCode : Nat := 0
  connectTimeoutCode : Nat := 0
  requestTimeoutCode : Nat := 0
  caBundleCode : Nat := 0
  sslCertCode : Nat := 0
  sslKeyCode : Nat := 0
  protocolCode : Nat := 0
  performCode : Nat := 0
  strerror : Nat → String
  respStatus : Nat
  respHeaderLines : List (List Char)
  respBodyChunks : List String

/-- Modelled from the spec: the result codes of the configuration steps a
`get`/`post`/`put`/`download_file` call executes in order (§4.2): method,
URL, header list, cookie string, response header/body write callbacks,
request body read callbacks, timeouts, then CA file and client cert/key
only when the session has them configured, then the allowed-protocol
bitmask.  GET needs no method option (the engine default); the CA and
cert steps run only when `set_ca_cert`/`set_client_cert` were called
(§4.5 defaults). -/
def config_codes (e : engine) (cl : client_state) (method : http_method) : List Nat :=
  (match method with
   | .get => []
   | .post => [e.postCode]
   | .put => [e.putCode])
  ++ [e.urlCode, e.headerCode, e.cookieCode,
      e.headerFunctionCode, e.headerContextCode,
      e.writeBodyFunctionCode, e.writeBodyContextCode,
      e.readBodyFunctionCode, e.readBodyContextCode,
      e.connectTimeoutCode, e.requestTimeoutCode]
  ++ (if cl.ca_cert ≠ "" then [e.caBundleCode] else [])
  ++ (if cl.client_cert ≠ "" then [e.sslCertCode, e.sslKeyCode] else [])
  ++ [e.protocolCode]

/-- Embedded from `client.hpp` lines 284–294
(`client::curl_easy_setopt_maybe`), iterated over the configuration
steps: the first non-zero result code raises
`http_request_exception(ctx.req, curl_easy_strerror(result))`. -/
def run_config (req : request) (strerror : Nat → String) :
    List Nat → Option http_request_exception
  | [] => none
  | c :: rest =>
    if c ≠ 0 then some ⟨req, strerror c⟩ else run_config req strerror rest

/-- Modelled from the spec: the response populated during a successful
call (§4.2): status code from the engine, header collection accumulated
by the header write callback over the received lines, body accumulated
by the body write callback over the received chunks in arrival order. -/
def build_response (e : engine) : response :=
  { status_code := e.respStatus
  , headers := e.respHeaderLines.foldl write_header []
  , body := String.join e.respBodyChunks }

/-- Modelled from the spec: `client::perform` (`client.hpp` line 272,
implemented in `client.cc`, not under src/), the common path of
`get`/`post`/`put`: run every configuration step and the blocking perform
step in order, raising on the first non-zero code, otherwise returning
the populated response. -/
def perform (e : engine) (cl : client_state) (method : http_method)
    (req : request) : Except http_request_exception response :=
  match run_config req e.strerror (config_codes e cl method ++ [e.performCode]) with
  | some ex => .error ex
  | none => .ok (build_response e)

/-- Modelled from the spec: the single cookie-header string
`client::set_cookies` hands to the engine for a request — the serialized
cookie mapping (§4.2). -/
def set_cookies_arg (req : request) : String :=
  cookie_string req.cookies

/-- Modelled from the spec: the filesystem at the `download_file`
boundary (§6): the generated unique temp-file path, whether opening it
for writing succeeds, an optional filesystem-layer failure striking
before the perform step reaches the network (its native message), and
whether temp-file removal and the success rename succeed. -/
structure dl_fs where
  temp_path : String
  open_ok : Bool := true
  fs_error : Option String := none
  remove_ok : Bool := true
  rename_ok : Bool := true
  rename_msg : String := ""
deriving Repr, DecidableEq

/-- Modelled from the spec: the fixed phrase appended to the raised
message when the temp file could not be cleaned up, identifying that
file (§4.3 step 3; test expects messages of the form
`"<engine error> and failed to remove temporary file <temp name>"`). -/
def removal_failure_note (temp_path : String) : String :=
  " and failed to remove temporary file " ++ temp_path

/-- Outcome of one `download_file` call: the raised exception or success,
whether the temp file is left on disk in the terminal state, and whether
any engine call (configuration or perform) was attempted. -/
structure dl_outcome where
  result : Except http_file_download_exception Unit
  temp_left : Bool
  engine_called : Bool
deriving Repr

/-- Modelled from the spec: the failure exit common to the post-open
states of the download state machine (§4.3): remove the temp file best
effort; if removal succeeds the exception carries `msg` (and no temp
path); if removal fails the temp path is retained in the exception and,
for engine-originated failures (`note = true`), the fixed
removal-failure phrase is appended so no information is lost, while a
filesystem-layer native message propagates unmodified (`note = false`,
§4.3 step 4). -/
def fail_cleanup (req : request) (file_path : String) (fsm : dl_fs)
    (msg : String) (note : Bool) : dl_outcome :=
  if fsm.remove_ok then
    { result := .error (http_file_download_exception.mk3 req file_path msg)
    , temp_left := false, engine_called := true }
  else
    { result := .error
        { req := req
        , message := if note then msg ++ removal_failure_note fsm.temp_path else msg
        , file_path := file_path
        , temp_path := fsm.temp_path }
    , temp_left := true, engine_called := true }

/-- Modelled from the spec: `client::download_file` (`client.hpp` lines
216–218, implemented in `client.cc`, not under src/), the temp-file
state machine of §4.3: open the temp file (failure raises
`"Failed to open temporary file for writing"` with no engine call
attempted), run `get`'s configuration, surface a pre-perform
filesystem-layer failure with its native message unmodified, run the
blocking perform, and on success rename the temp file into place; every
post-open failure removes the temp file best effort via
`fail_cleanup`. -/
def download_file (e : engine) (cl : client_state) (fsm : dl_fs)
    (req : request) (file_path : String) : dl_outcome :=
  if ¬ fsm.open_ok then
    { result := .error (http_file_download_exception.mk3 req file_path
        "Failed to open temporary file for writing")
    , temp_left := false, engine_called := false }
  else
    match run_config req e.strerror (config_codes e cl .get) with
    | some ex => fail_cleanup req file_path fsm ex.message true
    | none =>
      match fsm.fs_error with
      | some msg => fail_cleanup req file_path fsm msg false
      | none =>
        if e.performCode ≠ 0 then
          fail_cleanup req file_path fsm (e.strerror e.performCode) true
        else
          if fsm.rename_ok then
            { result := .ok (), temp_left := false, engine_called := true }
          else
            fail_cleanup req file_path fsm fsm.rename_msg false

/-- Modelled from the spec: `client::read_body` (`client.hpp` line 296,
implemented in `client.cc`, not under src/), §4.2 body read callback:
copy up to `n` bytes of the body starting at the current read offset,
advance the offset by the number copied; an empty chunk signals end of
body. -/
def read_body (body : List Char) (offset : Nat) (n : Nat) : List Char × Nat :=
  let chunk := (body.drop offset).take n
  (chunk, offset + chunk.length)

/-- Modelled from the spec: the engine's upload loop at the callback
boundary (§6): call `read_body` repeatedly with buffer capacity `n`,
accumulating the chunks until the callback reports end of body.  `fuel`
bounds the number of invocations. -/
def drain_body (body : List Char) (n : Nat) : Nat → Nat → List Char
  | _, 0 => []
  | offset, fuel + 1 =>
    let step := read_body body offset n
    if step.1 = [] then [] else step.1 ++ drain_body body n step.2 fuel

/-- Sample request used to instantiate theorems at concrete inputs. -/
def sampleReq : request :=
  { url := "http://valid.com/" }

/-- Sample session state: defaults of §4.5 (no CA, no client cert, all
protocols). -/
def defaultClient : client_state :=
  { client_protocols := 1 }

/-- Sample engine in which every step succeeds. -/
def okEngine : engine :=
  { strerror := fun _ => "easy perform failed"
  , respStatus := 200
  , respHeaderLines := []
  , respBodyChunks := ["successfully downloaded file"] }

/-- Sample engine whose perform step fails with code 42. -/
def failEngine : engine :=
  { okEngine with performCode := 42 }

theorem run_config_none (req : request) (f : Nat → String) :
    ∀ l : List Nat, run_config req f l = none ↔ ∀ c ∈ l, c = 0 := by
  intro l
  induction l with
  | nil => simp [run_config]
  | cons c rest ih =>
    by_cases hc : c = 0
    · subst hc
      simp [run_config, ih]
    · simp [run_config, hc]

theorem run_config_some (req : request) (f : Nat → String)
    (l : List Nat) (ex : http_request_exception)
    (h : run_config req f l = some ex) :
    ex.req = req ∧ ∃ c, c ∈ l ∧ c ≠ 0 ∧ ex.message = f c := by
  induction l with
  | nil => simp [run_config] at h
  | cons c rest ih =>
    by_cases hc : c = 0
    · subst hc
      simp only [run_config, ne_eq, not_true_eq_false, if_false] at h
      obtain ⟨h1, d, hd, hd0, hdm⟩ := ih h
      exact ⟨h1, d, List.mem_cons_of_mem _ hd, hd0, hdm⟩
    · simp only [run_config, ne_eq, hc, not_false_eq_true, if_true,
        Option.some.injEq] at h
      subst h
      exact ⟨rfl, c, List.mem_cons_self c rest, hc, rfl⟩

/-- C5: for every `get`/`post`/`put` call, if any engine configuration
step or the perform step returns a non-zero code the call raises a
request-scoped exception carrying the offending request and the
engine's human-readable error string for that code; otherwise it
returns the populated response — there is no partial-success outcome. -/
theorem perform_raises_or_returns (e : engine) (cl : client_state)
    (method : http_method) (req : request) :
    (∃ ex, perform e cl method req = Except.error ex ∧ ex.req = req ∧
        ∃ c, c ∈ config_codes e cl method ++ [e.performCode] ∧ c ≠ 0 ∧
          ex.message = e.strerror c)
    ∨ (perform e cl method req = Except.ok (build_response e) ∧
        ∀ c ∈ config_codes e cl method ++ [e.performCode], c = 0) := by
  unfold perform
  cases h : run_config req e.strerror (config_codes e cl method ++ [e.performCode]) with
  | none =>
    right
    exact ⟨rfl, (run_config_none req e.strerror _).mp h⟩
  | some ex =>
    left
    obtain ⟨h1, c, hc, hc0, hcm⟩ := run_config_some req e.strerror _ ex h
    exact ⟨ex, rfl, h1, c, hc, hc0, hcm⟩

/-- C9: when every configuration step and the perform step succeed,
`get`/`post`/`put` do not raise even if the server answered with an HTTP
error status: they return a normal response whose status code is the
status the engine reported (e.g. 404). -/
theorem perform_returns_http_status (e : engine) (cl : client_state)
    (method : http_method) (req : request)
    (hconf : ∀ c ∈ config_codes e cl method, c = 0)
    (hperf : e.performCode = 0) :
    perform e cl method req = Except.ok (build_response e) ∧
    (build_response e).status_code = e.respStatus := by
  have hall : ∀ c ∈ config_codes e cl method ++ [e.performCode], c = 0 := by
    intro c hc
    rcases List.mem_append.mp hc with h | h
    · exact hconf c h
    · simp only [List.mem_singleton] at h
      simpa [h] using hperf
  have hrc := (run_config_none req e.strerror _).mpr hall
  unfold perform
  rw [hrc]
  exact ⟨rfl, rfl⟩

/-- Witness for C9: a request on an invalid URL with an all-successful
engine returns a 404 response instead of raising. -/
theorem perform_returns_http_status_witness :
    perform { okEngine with respStatus := 404 } defaultClient http_method.get
        { url := "http://invalid.com/" }
      = Except.ok { status_code := 404, headers := [], body := "successfully downloaded file" } := by
  have h := perform_returns_http_status { okEngine with respStatus := 404 }
    defaultClient http_method.get { url := "http://invalid.com/" }
    (by decide) (by decide)
  exact h.1.trans (by rfl)

theorem mem_dropWhile_of_neg {p : Char → Bool} {c : Char} (hc : p c = false) :
    ∀ l : List Char, c ∈ l → c ∈ l.dropWhile p := by
  intro l
  induction l with
  | nil => intro h; exact absurd h (List.not_mem_nil c)
  | cons a t ih =>
    intro h
    rw [List.dropWhile_cons]
    by_cases hpa : p a
    · rw [if_pos hpa]
      rcases List.mem_cons.mp h with he | ht
      · subst he; rw [hc] at hpa; exact absurd hpa (by simp)
      · exact ih ht
    · rw [if_neg hpa]
      exact h

theorem colon_mem_trim {l : List Char} (h : ':' ∈ l) : ':' ∈ trim l := by
  have hsp : isSpace ':' = false := by decide
  have h1 : ':' ∈ trimLeft l := mem_dropWhile_of_neg hsp l h
  have h2 : ':' ∈ (trimLeft l).reverse := List.mem_reverse.mpr h1
  have h3 : ':' ∈ trimLeft ((trimLeft l).reverse) :=
    mem_dropWhile_of_neg hsp _ h2
  exact List.mem_reverse.mpr h3

theorem trim_ne_nil_of_colon {l : List Char} (h : ':' ∈ l) : trim l ≠ [] := by
  intro heq
  have hmem := colon_mem_trim h
  rw [heq] at hmem
  exact List.not_mem_nil ':' hmem

theorem splitColon_append {name : List Char} (h : ':' ∉ name)
    (value : List Char) :
    splitColon (name ++ ':' :: value) = some (name, value) := by
  induction name with
  | nil => simp [splitColon]
  | cons a t ih =>
    have ha : ¬ (a = ':') := fun he => h (he ▸ List.mem_cons_self a t)
    have ht : ':' ∉ t := fun hm => h (List.mem_cons_of_mem _ hm)
    simp only [List.cons_append, splitColon, if_neg ha, List.append_eq, ih ht]

/-- C6: the header write callback adds zero entries for a blank
delimiter line, zero entries for a line without a `:` separator, and
exactly one (name, value) pair with surrounding whitespace trimmed from
both parts for a well-formed line split on its first `:`. -/
theorem write_header_cases (hd : List (List Char × List Char)) :
    (∀ line, trim line = [] → write_header hd line = hd) ∧
    (∀ line, splitColon line = none → write_header hd line = hd) ∧
    (∀ name value, ':' ∉ name →
      write_header hd (name ++ ':' :: value)
        = hd ++ [(trim name, trim value)]) := by
  refine ⟨?_, ?_, ?_⟩
  · intro line h
    unfold write_header
    rw [if_pos h]
  · intro line h
    unfold write_header
    by_cases htl : trim line = []
    · rw [if_pos htl]
    · rw [if_neg htl, h]
  · intro name value h
    have hmem : ':' ∈ name ++ ':' :: value :=
      List.mem_append_right _ (List.mem_cons_self _ _)
    unfold write_header
    rw [if_neg (trim_ne_nil_of_colon hmem), splitColon_append h value]

/-- Witness for C6 at the test suite's inputs: the `"\r\n"` delimiter
line and a separator-free status line add no header entry; a
non-standard header line adds exactly its trimmed (name, value) pair. -/
theorem write_header_cases_witness :
    write_header [] ['\r', '\n'] = [] ∧
    write_header [] "HTTP/1.1 200 OK".data = [] ∧
    write_header [] (" nonstd_header_name ".data ++ ':' :: " nonstd_header_value".data)
      = [("nonstd_header_name".data, "nonstd_header_value".data)] := by
  have h := write_header_cases []
  refine ⟨h.1 _ (by decide), h.2.1 _ (by decide), ?_⟩
  have h3 := h.2.2 " nonstd_header_name ".data " nonstd_header_value".data
    (by decide)
  rw [h3]
  decide

/-- The spec's description of the cookie header (§3): the already
formatted `name=value` strings joined by `"; "`. -/
def join_pairs : List String → String
  | [] => ""
  | [s] => s
  | s :: s2 :: rest => s ++ "; " ++ join_pairs (s2 :: rest)

theorem cookie_string_eq_join (l : List (String × String)) :
    cookie_string l = join_pairs (l.map fun p => p.1 ++ "=" ++ p.2) := by
  induction l with
  | nil => rfl
  | cons p t ih =>
    obtain ⟨n, v⟩ := p
    cases t with
    | nil => rfl
    | cons q t2 =>
      obtain ⟨n2, v2⟩ := q
      have h1 : cookie_string ((n, v) :: (n2, v2) :: t2)
          = n ++ "=" ++ v ++ "; " ++ cookie_string ((n2, v2) :: t2) := rfl
      have h2 : join_pairs ((((n, v) :: (n2, v2) :: t2)).map
            fun p => p.1 ++ "=" ++ p.2)
          = n ++ "=" ++ v ++ "; " ++ join_pairs (((n2, v2) :: t2).map
            fun p => p.1 ++ "=" ++ p.2) := rfl
      rw [h1, h2, ih]

theorem remove_cookie_eq_filter (name : String) :
    ∀ l : List (String × String),
      remove_cookie name l = l.filter fun p => p.1 != name := by
  intro l
  induction l with
  | nil => rfl
  | cons p t ih =>
    obtain ⟨n, v⟩ := p
    by_cases h : n = name
    · subst h
      simp [remove_cookie, List.filter, ih]
    · have hb : (n != name) = true := bne_iff_ne.mpr h
      simp [remove_cookie, List.filter, h, hb, ih]

/-- C7: the cookie header string handed to the engine is the request's
`name=value` pairs joined by `"; "` in insertion order; it is empty when
the request has no cookies; and `remove_cookie` keeps exactly the pairs
whose name differs, in their original relative order. -/
theorem cookie_header_spec :
    (∀ req : request, set_cookies_arg req
        = join_pairs (req.cookies.map fun p => p.1 ++ "=" ++ p.2)) ∧
    (∀ req : request, req.cookies = [] → set_cookies_arg req = "") ∧
    (∀ name (l : List (String × String)),
        remove_cookie name l = l.filter fun p => p.1 != name) := by
  refine ⟨?_, ?_, ?_⟩
  · intro req
    exact cookie_string_eq_join req.cookies
  · intro req h
    unfold set_cookies_arg
    rw [h]
    rfl
  · exact remove_cookie_eq_filter

/-- Witness for C7 at the test suite's inputs: two cookies serialize
joined by `"; "` in insertion order, the cookie-less request serializes
to the empty string, and removing `cookie_1` leaves exactly
`cookie_0`'s pair. -/
theorem cookie_header_spec_witness :
    set_cookies_arg
        { url := "http://valid.com",
          cookies := [("cookie_0", "cookie_val_0"), ("cookie_1", "cookie_val_1")] }
      = "cookie_0=cookie_val_0; cookie_1=cookie_val_1" ∧
    set_cookies_arg { url := "http://valid.com" } = "" ∧
    remove_cookie "cookie_1"
        [("cookie_0", "cookie_val_0"), ("cookie_1", "cookie_val_1")]
      = [("cookie_0", "cookie_val_0")] := by
  have h := cookie_header_spec
  refine ⟨?_, h.2.1 { url := "http://valid.com" } rfl, ?_⟩
  · rw [h.1
      { url := "http://valid.com",
        cookies := [("cookie_0", "cookie_val_0"), ("cookie_1", "cookie_val_1")] }]
    rfl
  · rw [h.2.2 "cookie_1"
      [("cookie_0", "cookie_val_0"), ("cookie_1", "cookie_val_1")]]
    rfl

theorem drain_body_drop (body : List Char) (n : Nat) (hn : 0 < n) :
    ∀ fuel offset, body.length - offset ≤ fuel →
      drain_body body n offset fuel = body.drop offset := by
  intro fuel
  induction fuel with
  | zero =>
    intro offset h
    have hlen : body.length ≤ offset := Nat.le_of_sub_eq_zero (Nat.le_zero.mp h)
    rw [List.drop_eq_nil_of_le hlen]
    rfl
  | succ fuel ih =>
    intro offset h
    show (if ((body.drop offset).take n) = [] then []
      else ((body.drop offset).take n)
        ++ drain_body body n (offset + ((body.drop offset).take n).length) fuel)
      = body.drop offset
    by_cases hl : body.drop offset = []
    · rw [hl]
      simp
    · have htake : (body.drop offset).take n ≠ [] := by
        intro he
        rcases List.take_eq_nil_iff.mp he with h0 | h0
        · omega
        · exact hl h0
      rw [if_neg htake]
      have hclen : 0 < ((body.drop offset).take n).length :=
        List.length_pos.mpr htake
      have hdroplen : 0 < body.length - offset := by
        by_contra hc
        exact hl (List.drop_eq_nil_of_le (Nat.le_of_sub_eq_zero
          (Nat.le_zero.mp (Nat.le_of_not_lt hc))))
      have hfuel2 : body.length - (offset + ((body.drop offset).take n).length)
          ≤ fuel := by
        omega
      rw [ih _ hfuel2]
      have hdd : body.drop (offset + ((body.drop offset).take n).length)
          = (body.drop offset).drop (((body.drop offset).take n).length) := by
        rw [List.drop_drop]
      rw [hdd]
      rcases le_or_lt n (body.drop offset).length with hle | hlt
      · have : ((body.drop offset).take n).length = n := by
          rw [List.length_take]
          omega
        rw [this, List.take_append_drop]
      · have hall : (body.drop offset).take n = body.drop offset :=
          List.take_of_length_le (Nat.le_of_lt hlt)
        have : ((body.drop offset).take n).length = (body.drop offset).length := by
          rw [hall]
        rw [this, List.drop_length, hall, List.append_nil]

/-- C8: for every request with a body, the byte sequence the engine
accumulates by invoking the body read callback with any positive buffer
capacity until it reports end of body is byte-for-byte identical to the
body set on the request, including its length. -/
theorem read_body_roundtrip (req : request) (b : String)
    (hb : req.body = some b) (n fuel : Nat) (hn : 0 < n)
    (hfuel : b.data.length ≤ fuel) :
    drain_body b.data n 0 fuel = b.data ∧
    (drain_body b.data n 0 fuel).length = b.data.length := by
  have h := drain_body_drop b.data n hn fuel 0 (by omega)
  rw [List.drop_zero] at h
  exact ⟨h, by rw [h]⟩

/-- Witness for C8 at the test suite's input body, with an 8-byte
callback buffer. -/
theorem read_body_roundtrip_witness :
    drain_body "Hello, I am a request body!".data 8 0 27
      = "Hello, I am a request body!".data := by
  have h := read_body_roundtrip
    { url := "http://valid.com", body := some "Hello, I am a request body!" }
    "Hello, I am a request body!" rfl 8 27 (by decide) (by decide)
  exact h.1

/-- C1: when the perform step fails and removal of the temp file
succeeds, the raised file-download exception's message is exactly the
engine's error string — nothing prepended or appended — and no temp file
remains on disk in that failure terminal state. -/
theorem dl_perform_cleanup_ok (e : engine) (cl : client_state)
    (fsm : dl_fs) (req : request) (fp : String)
    (hopen : fsm.open_ok = true)
    (hconf : ∀ c ∈ config_codes e cl http_method.get, c = 0)
    (hfs : fsm.fs_error = none)
    (hperf : e.performCode ≠ 0)
    (hrm : fsm.remove_ok = true) :
    (download_file e cl fsm req fp).result
      = Except.error (http_file_download_exception.mk3 req fp
          (e.strerror e.performCode)) ∧
    (download_file e cl fsm req fp).temp_left = false := by
  have hrc := (run_config_none req e.strerror _).mpr hconf
  unfold download_file fail_cleanup
  rw [hopen, hrc, hfs]
  simp [hperf, hrm]

/-- Witness for C1: a concrete failing perform with successful cleanup
raises exactly `"easy perform failed"` and leaves no temp file. -/
theorem dl_perform_cleanup_ok_witness :
    (download_file failEngine defaultClient { temp_path := "file_util_fixture_x" }
        sampleReq "file").result
      = Except.error (http_file_download_exception.mk3 sampleReq "file"
          "easy perform failed") ∧
    (download_file failEngine defaultClient { temp_path := "file_util_fixture_x" }
        sampleReq "file").temp_left = false := by
  exact dl_perform_cleanup_ok failEngine defaultClient
    { temp_path := "file_util_fixture_x" } sampleReq "file"
    rfl (by decide) rfl (by decide) rfl

/-- C2: when the perform step fails and removal of the temp file also
fails, the raised exception's message is the engine's error string
followed by the fixed removal-failure phrase identifying the temp file,
and the exception's `temp_path` accessor returns the (non-empty) temp
file path. -/
theorem dl_perform_cleanup_fails (e : engine) (cl : client_state)
    (fsm : dl_fs) (req : request) (fp : String)
    (hopen : fsm.open_ok = true)
    (hconf : ∀ c ∈ config_codes e cl http_method.get, c = 0)
    (hfs : fsm.fs_error = none)
    (hperf : e.performCode ≠ 0)
    (hrm : fsm.remove_ok = false)
    (htp : fsm.temp_path ≠ "") :
    ∃ ex, (download_file e cl fsm req fp).result = Except.error ex ∧
      ex.message = e.strerror e.performCode
        ++ removal_failure_note fsm.temp_path ∧
      (∃ rest, ex.message = e.strerror e.performCode ++ rest) ∧
      ex.temp_path = fsm.temp_path ∧ ex.temp_path ≠ "" := by
  have hrc := (run_config_none req e.strerror _).mpr hconf
  have hres : (download_file e cl fsm req fp).result
      = Except.error
          { req := req,
            message := e.strerror e.performCode
              ++ removal_failure_note fsm.temp_path,
            file_path := fp, temp_path := fsm.temp_path } := by
    unfold download_file fail_cleanup
    rw [hopen, hrc, hfs]
    simp [hperf, hrm]
  exact ⟨_, hres, rfl, ⟨removal_failure_note fsm.temp_path, rfl⟩, rfl, htp⟩

/-- Witness for C2: a concrete failing perform whose cleanup also fails
raises `"easy perform failed and failed to remove temporary file
file_util_fixture_x"` and retains the temp path in the exception. -/
theorem dl_perform_cleanup_fails_witness :
    ∃ ex, (download_file failEngine defaultClient
        { temp_path := "file_util_fixture_x", remove_ok := false }
        sampleReq "file").result = Except.error ex ∧
      ex.message = "easy perform failed"
        ++ removal_failure_note "file_util_fixture_x" ∧
      (∃ rest, ex.message = "easy perform failed" ++ rest) ∧
      ex.temp_path = "file_util_fixture_x" ∧ ex.temp_path ≠ "" := by
  exact dl_perform_cleanup_fails failEngine defaultClient
    { temp_path := "file_util_fixture_x", remove_ok := false } sampleReq "file"
    rfl (by decide) rfl (by decide) rfl (by decide)

/-- C3: when opening the temp file for writing fails, the raised
exception's message is exactly `"Failed to open temporary file for
writing"` and no engine call (configuration or perform) is attempted. -/
theorem dl_open_fails (e : engine) (cl : client_state) (fsm : dl_fs)
    (req : request) (fp : String)
    (hopen : fsm.open_ok = false) :
    (download_file e cl fsm req fp).result
      = Except.error (http_file_download_exception.mk3 req fp
          "Failed to open temporary file for writing") ∧
    (download_file e cl fsm req fp).engine_called = false := by
  unfold download_file
  rw [hopen]
  simp

/-- Witness for C3: a concrete failed open raises the fixed message and
attempts no engine call, even though the engine would have failed. -/
theorem dl_open_fails_witness :
    (download_file failEngine defaultClient
        { temp_path := "file_util_fixture_x", open_ok := false }
        sampleReq "parent/child").result
      = Except.error (http_file_download_exception.mk3 sampleReq "parent/child"
          "Failed to open temporary file for writing") ∧
    (download_file failEngine defaultClient
        { temp_path := "file_util_fixture_x", open_ok := false }
        sampleReq "parent/child").engine_called = false := by
  exact dl_open_fails failEngine defaultClient
    { temp_path := "file_util_fixture_x", open_ok := false }
    sampleReq "parent/child" rfl

/-- C4: a filesystem-layer failure striking before the perform step
reaches the network is raised with its native message unmodified —
whether or not temp-file cleanup succeeds — never reformatted or
replaced by an engine or generic message. -/
theorem dl_fs_error_native_message (e : engine) (cl : client_state)
    (fsm : dl_fs) (req : request) (fp : String) (msg : String)
    (hopen : fsm.open_ok = true)
    (hconf : ∀ c ∈ config_codes e cl http_method.get, c = 0)
    (hfs : fsm.fs_error = some msg) :
    ∃ ex, (download_file e cl fsm req fp).result = Except.error ex ∧
      ex.message = msg := by
  have hrc := (run_config_none req e.strerror _).mpr hconf
  unfold download_file fail_cleanup
  rw [hopen, hrc, hfs]
  by_cases hrm : fsm.remove_ok
  · simp [hrm, http_file_download_exception.mk3]
  · simp [hrm]

/-- Witness for C4: a concrete boost::filesystem failure before the
perform step propagates with its native message unmodified. -/
theorem dl_fs_error_native_message_witness :
    ∃ ex, (download_file failEngine defaultClient
        { temp_path := "file_util_fixture_x",
          fs_error := some "boost::filesystem::remove: Directory not empty" }
        sampleReq "file").result = Except.error ex ∧
      ex.message = "boost::filesystem::remove: Directory not empty" := by
  exact dl_fs_error_native_message failEngine defaultClient
    { temp_path := "file_util_fixture_x",
      fs_error := some "boost::filesystem::remove: Directory not empty" }
    sampleReq "file" "boost::filesystem::remove: Directory not empty"
    rfl (by decide) rfl

theorem fail_cleanup_temp_iff (req : request) (fp : String) (fsm : dl_fs)
    (msg : String) (note : Bool) (ex : http_file_download_exception)
    (htp : fsm.temp_path ≠ "")
    (h : (fail_cleanup req fp fsm msg note).result = Except.error ex) :
    (ex.temp_path ≠ "" ↔ (fail_cleanup req fp fsm msg note).temp_left = true) := by
  unfold fail_cleanup at h ⊢
  by_cases hrm : fsm.remove_ok
  · rw [if_pos hrm] at h ⊢
    simp only [Except.error.injEq] at h
    subst h
    simp [http_file_download_exception.mk3]
  · rw [if_neg hrm] at h ⊢
    simp only [Except.error.injEq] at h
    subst h
    simpa using htp

/-- C10: an `http_file_download_exception` constructed through the
three-argument constructor has an empty `temp_path`, its `file_path` and
`req` accessors return the construction arguments (likewise for the
four-argument constructor), and for every `download_file` failure the
`temp_path` accessor returns a non-empty path exactly when the temp file
was left behind, i.e. when its own removal failed. -/
theorem temp_path_semantics :
    (∀ (r : request) (fp m : String),
        (http_file_download_exception.mk3 r fp m).temp_path = "" ∧
        (http_file_download_exception.mk3 r fp m).file_path = fp ∧
        (http_file_download_exception.mk3 r fp m).req = r) ∧
    (∀ (r : request) (fp tp m : String),
        ({ req := r, message := m, file_path := fp, temp_path := tp }
            : http_file_download_exception).file_path = fp ∧
        ({ req := r, message := m, file_path := fp, temp_path := tp }
            : http_file_download_exception).req = r ∧
        ({ req := r, message := m, file_path := fp, temp_path := tp }
            : http_file_download_exception).temp_path = tp) ∧
    (∀ (e : engine) (cl : client_state) (fsm : dl_fs) (req : request)
        (fp : String) (ex : http_file_download_exception),
        fsm.temp_path ≠ "" →
        (download_file e cl fsm req fp).result = Except.error ex →
        (ex.temp_path ≠ ""
          ↔ (download_file e cl fsm req fp).temp_left = true)) := by
  refine ⟨fun r fp m => ⟨rfl, rfl, rfl⟩, fun r fp tp m => ⟨rfl, rfl, rfl⟩, ?_⟩
  intro e cl fsm req fp ex htp h
  cases hopen : fsm.open_ok with
  | false =>
    have he : download_file e cl fsm req fp
        = { result := Except.error (http_file_download_exception.mk3 req fp
              "Failed to open temporary file for writing")
          , temp_left := false, engine_called := false } := by
      unfold download_file
      rw [hopen]
      simp
    rw [he] at h ⊢
    simp only [Except.error.injEq] at h
    subst h
    simp [http_file_download_exception.mk3]
  | true =>
    cases hrc : run_config req e.strerror (config_codes e cl http_method.get) with
    | some ex2 =>
      have he : download_file e cl fsm req fp
          = fail_cleanup req fp fsm ex2.message true := by
        unfold download_file
        rw [hopen, hrc]
        simp
      rw [he] at h ⊢
      exact fail_cleanup_temp_iff req fp fsm ex2.message true ex htp h
    | none =>
      cases hfs : fsm.fs_error with
      | some msg =>
        have he : download_file e cl fsm req fp
            = fail_cleanup req fp fsm msg false := by
          unfold download_file
          rw [hopen, hrc, hfs]
          simp
        rw [he] at h ⊢
        exact fail_cleanup_temp_iff req fp fsm msg false ex htp h
      | none =>
        by_cases hperf : e.performCode ≠ 0
        · have he : download_file e cl fsm req fp
              = fail_cleanup req fp fsm (e.strerror e.performCode) true := by
            unfold download_file
            rw [hopen, hrc, hfs]
            simp [hperf]
          rw [he] at h ⊢
          exact fail_cleanup_temp_iff req fp fsm (e.strerror e.performCode)
            true ex htp h
        · cases hrn : fsm.rename_ok with
          | true =>
            have he : download_file e cl fsm req fp
                = { result := Except.ok (), temp_left := false
                  , engine_called := true } := by
              unfold download_file
              rw [hopen, hrc, hfs]
              simp [hperf, hrn]
            rw [he] at h
            simp at h
          | false =>
            have he : download_file e cl fsm req fp
                = fail_cleanup req fp fsm fsm.rename_msg false := by
              unfold download_file
              rw [hopen, hrc, hfs]
              simp [hperf, hrn]
            rw [he] at h ⊢
            exact fail_cleanup_temp_iff req fp fsm fsm.rename_msg false ex htp h

/-- Witness for C10: the three-argument constructor yields an empty
`temp_path`, and a concrete download failure with failed cleanup yields
an exception whose non-empty `temp_path` matches the temp file being
left behind. -/
theorem temp_path_semantics_witness :
    (http_file_download_exception.mk3 sampleReq "file"
      "easy perform failed").temp_path = "" ∧
    (({ req := sampleReq,
        message := "easy perform failed and failed to remove temporary file file_util_fixture_x",
        file_path := "file",
        temp_path := "file_util_fixture_x" }
          : http_file_download_exception).temp_path ≠ ""
      ↔ (download_file failEngine defaultClient
          { temp_path := "file_util_fixture_x", remove_ok := false }
          sampleReq "file").temp_left = true) := by
  have h := temp_path_semantics
  refine ⟨(h.1 sampleReq "file" "easy perform failed").1, ?_⟩
  refine h.2.2 failEngine defaultClient
    { temp_path := "file_util_fixture_x", remove_ok := false } sampleReq "file"
    _ (by decide) ?_
  rfl

end Leatherman.Curl
